import Mathlib

/-!
Shallow embedding of the db_pandas database access layer: connection-string
resolution, the reflected schema catalog, value-to-column-type inference and
the table read/write operations, together with theorems settling the
specification's claims against this embedding.

Conventions of the embedding:
* Python values sampled from a dataframe cell are the inductive `PyValue`;
  Python's subtyping quirks (`bool` is a subclass of `int`, `datetime.date`
  is not an instance of `datetime.datetime`) are encoded in the
  `isinstance_*` predicates.
* The session state is `DB`: the physical database (`phys`) plus the
  SQLAlchemy `MetaData` table mapping that the code uses as its schema
  catalog (`meta`).  `MetaData.reflect` only ever adds missing tables, it
  never removes entries for dropped tables; `refresh` models that add-only
  behaviour.
* Fallible operations return `Except (PyErr × DB) DB`: a raised exception
  carries the state reached at the moment of the raise (mutations performed
  before the exception persist, as they do in the source).
-/

/-- Runtime (Python) value sampled from a dataframe cell.  `bool` carries a
Bool, `int` an Int, text a String; `date` is a calendar date without
time-of-day, `datetime` a date with time-of-day, `pyNone` is Python `None`
or any other object. -/
inductive PyValue where
  | bool (b : Bool)
  | int (n : Int)
  | float
  | str (s : String)
  | date
  | datetime
  | pyNone
  deriving DecidableEq

/-- Python `isinstance(v, int)`: true for `bool` values as well, because in
Python `bool` is a subclass of `int`. -/
def isinstance_int : PyValue → Bool
  | .bool _ => true
  | .int _ => true
  | _ => false

/-- Python `isinstance(v, float)`. -/
def isinstance_float : PyValue → Bool
  | .float => true
  | _ => false

/-- Python `isinstance(v, bool)`. -/
def isinstance_bool : PyValue → Bool
  | .bool _ => true
  | _ => false

/-- Python `isinstance(v, str)`. -/
def isinstance_str : PyValue → Bool
  | .str _ => true
  | _ => false

/-- Python `isinstance(v, datetime.datetime)`: false for a plain
`datetime.date`, since `date` is the superclass, not a subclass. -/
def isinstance_datetime : PyValue → Bool
  | .datetime => true
  | _ => false

/-- Abstract SQLAlchemy column type tags used by the source. -/
inductive SqlType where
  | BigInteger
  | Float
  | Boolean
  | String (limit : Nat)
  | Date
  | DateTime
  | Text
  deriving DecidableEq

/-- Embedding of `_sql_dtypes(value, char_limit)`: the ordered isinstance
chain exactly as written in the source — int, float, bool, str, datetime,
else Text.  (There is no `date` branch in the source even though `Date` is
imported.) -/
def sql_dtypes (value : PyValue) (char_limit : Nat := 255) : SqlType :=
  if isinstance_int value then .BigInteger
  else if isinstance_float value then .Float
  else if isinstance_bool value then .Boolean
  else if isinstance_str value then .String char_limit
  else if isinstance_datetime value then .DateTime
  else .Text

/-- Python exception kinds raised by the code paths we model. -/
inductive PyErr where
  | keyError
  | valueError
  | typeError
  | nameError
  | invalidRequest
  | statementError
  | indexError
  deriving DecidableEq

/-- SQLAlchemy `Column`: name, type, plus the `index=` (secondary index) and
`primary_key=` flags.  The source only ever sets `index=True`; it never sets
`primary_key`. -/
structure Col where
  name : String
  dtype : SqlType
  indexed : Bool := false
  primaryKey : Bool := false
  deriving DecidableEq

/-- A row record: mapping of column name to value, as produced by
`df2dict`. -/
abbrev Row := List (String × PyValue)

/-- A physical table: its column list and its stored rows. -/
structure TableData where
  cols : List Col
  rows : List Row
  deriving DecidableEq

/-- Session-visible state: the physical database and the reflected
`MetaData` catalog (`self.metadata.tables`). -/
structure DB where
  phys : List (String × TableData)
  meta : List (String × List Col)
  deriving DecidableEq

/-- Pandas dataframe abstraction: ordered named columns of values plus the
row index labels (`data.index`).  All columns have `idx.length` values. -/
structure DF where
  dcols : List (String × List PyValue)
  idx : List PyValue
  deriving DecidableEq

/-- Schema qualification performed at the top of `import_table`, `insert`,
`write_table` and `drop_table`: `table_name = self.schema + '.' + table_name`
when a schema is configured. -/
def qualify : Option String → String → String
  | Option.none, t => t
  | Option.some s, t => s ++ "." ++ t

/-- Lookup in the reflected catalog, `self.metadata.tables[name]`. -/
def lookupMeta (st : DB) (tn : String) : Option (List Col) :=
  (st.meta.find? (fun p => p.1 == tn)).map Prod.snd

/-- Membership test in the reflected catalog. -/
def containsMeta (st : DB) (tn : String) : Bool :=
  st.meta.any (fun p => p.1 == tn)

/-- Lookup of a physical table. -/
def lookupPhys (st : DB) (tn : String) : Option TableData :=
  (st.phys.find? (fun p => p.1 == tn)).map Prod.snd

/-- Physical existence check, `engine.dialect.has_table(conn, name)`. -/
def hasTablePhys (st : DB) (tn : String) : Bool :=
  st.phys.any (fun p => p.1 == tn)

/-- Replace the stored data of one physical table. -/
def updPhys (st : DB) (tn : String) (td : TableData) : DB :=
  { st with phys := st.phys.map (fun p => if p.1 == tn then (tn, td) else p) }

/-- Drop a physical table (effect of an executed `DROP TABLE`). -/
def erasePhys (st : DB) (tn : String) : DB :=
  { st with phys := st.phys.filter (fun p => !(p.1 == tn)) }

/-- Record a new entry in the reflected catalog (effect of constructing a
`Table(name, metadata, *cols)` on a name not yet present). -/
def addMeta (st : DB) (tn : String) (cols : List Col) : DB :=
  { st with meta := st.meta ++ [(tn, cols)] }

/-- Create a new physical table (effect of `table.create(engine)` on a name
not physically present). -/
def addPhys (st : DB) (tn : String) (td : TableData) : DB :=
  { st with phys := st.phys ++ [(tn, td)] }

/-- Embedding of `self._refresh()` / `MetaData.reflect`: add catalog entries
for physical tables missing from the catalog; entries already present are
left untouched — in particular an entry for a dropped table is NOT removed. -/
def refresh (st : DB) : DB :=
  { st with
    meta := st.meta ++
      ((st.phys.filter (fun p => !(containsMeta st p.1))).map
        (fun p => (p.1, p.2.cols))) }

/-- Embedding of `metadata.remove(metadata.tables[name])`: the indexing
raises KeyError when the name is absent, otherwise the entry is removed. -/
def metaRemove (st : DB) (tn : String) : Except (PyErr × DB) DB :=
  if containsMeta st tn then
    .ok { st with meta := st.meta.filter (fun p => !(p.1 == tn)) }
  else .error (.keyError, st)

/-- Database-level check that a value can be stored in a column of the given
type (NULL is accepted everywhere; Python bools insert into integer columns). -/
def valueFits : PyValue → SqlType → Bool
  | .pyNone, _ => true
  | .int _, .BigInteger => true
  | .bool _, .BigInteger => true
  | .bool _, .Boolean => true
  | .float, .Float => true
  | .str s, .String n => decide (s.length ≤ n)
  | .str _, .Text => true
  | .date, .Date => true
  | .datetime, .DateTime => true
  | _, _ => false

/-- A row record satisfies the target schema when every key names an existing
column and its value fits that column's type (keys may omit columns, which
then receive NULL). -/
def rowOk (cols : List Col) (r : Row) : Bool :=
  r.all (fun kv =>
    match cols.find? (fun c => c.name == kv.1) with
    | Option.some c => valueFits kv.2 c.dtype
    | Option.none => false)

/-- Sequential execution of the batched INSERT inside the transaction: rows
are applied one at a time; the first failing row aborts the whole unit of
work (the surrounding `engine.begin()` block then rolls everything back). -/
def execRows (cols : List Col) : TableData → List Row → Option TableData
  | td, [] => Option.some td
  | td, r :: rs =>
    if rowOk cols r then execRows cols { td with rows := td.rows ++ [r] } rs
    else Option.none

/-- Embedding of `df2dict` applied to a dataframe: one record per index
position, pairing each column name with its value at that position. -/
def dfRows (df : DF) : List Row :=
  (List.range df.idx.length).map
    (fun i => df.dcols.map (fun c => (c.1, c.2.getD i .pyNone)))

/-- Embedding of `Sql.insert(table_name, data)` (source name `insert`):
schema-qualify, look the table up in the reflected catalog (KeyError when
absent — insert never creates), then execute the whole batch inside one
transaction; on any failure the transaction is rolled back, so the state
carried by the error is the entry state.  Ends with a catalog refresh. -/
def insertOp (schema : Option String) (table_name : String) (data : List Row)
    (st : DB) : Except (PyErr × DB) DB :=
  let tn := qualify schema table_name
  match lookupMeta st tn with
  | Option.none => .error (.keyError, st)
  | Option.some _ =>
    match lookupPhys st tn with
    | Option.none => .error (.statementError, st)
    | Option.some td =>
      match execRows td.cols td data with
      | Option.none => .error (.statementError, st)
      | Option.some td' => .ok (refresh (updPhys st tn td'))

/-- Embedding of `Sql.drop_table(table_name)`: schema-qualify, index the
reflected catalog (KeyError when absent), emit DROP TABLE (a database error
when the table is not physically present), then refresh.  Note that neither
the drop nor the add-only refresh removes the catalog entry. -/
def drop_table (schema : Option String) (table_name : String) (st : DB) :
    Except (PyErr × DB) DB :=
  let tn := qualify schema table_name
  match lookupMeta st tn with
  | Option.none => .error (.keyError, st)
  | Option.some _ =>
    match lookupPhys st tn with
    | Option.none => .error (.statementError, st)
    | Option.some _ => .ok (refresh (erasePhys st tn))

/-- Embedding of the per-column inference loop of `write_table` (source
lines 412-415): for each column, `data.index[0]` (IndexError on an empty
frame) and then `_sql_dtypes` applied to that column's first-row value. -/
def columnTypes (df : DF) (char_limit : Nat) : Except PyErr (List SqlType) :=
  df.dcols.mapM (fun c =>
    match df.idx.head? with
    | Option.none => .error .indexError
    | Option.some _ => .ok (sql_dtypes (c.2.headD .pyNone) char_limit))

/-- Embedding of the creation half of `write_table` (source lines 409-428):
infer column types from the first row, optionally prepend the `Index` column
(typed by `_sql_dtypes(data.index[0])` with the DEFAULT char limit, and
carrying `index=True`, not `primary_key=True`), construct the `Table`
(InvalidRequestError if the name is already defined in the catalog), create
it physically, then — unless `create` — insert the data and refresh. -/
def createPath (schema : Option String) (df : DF) (tn : String)
    (create index : Bool) (char_limit : Nat) (st : DB) :
    Except (PyErr × DB) DB :=
  match columnTypes df char_limit with
  | .error e => .error (e, st)
  | .ok types =>
    let cols := ((df.dcols.map Prod.fst).zip types).map
      (fun p => ({ name := p.1, dtype := p.2 } : Col))
    let colQueryE : Except (PyErr × DB) (List Col) :=
      if index then
        match df.idx.head? with
        | Option.none => .error (.indexError, st)
        | Option.some v =>
          .ok ({ name := "Index", dtype := sql_dtypes v, indexed := true } :: cols)
      else .ok cols
    match colQueryE with
    | .error e => .error e
    | .ok colQuery =>
      if containsMeta st tn then .error (.invalidRequest, st)
      else
        let st1 := addMeta st tn colQuery
        if hasTablePhys st1 tn then .error (.statementError, st1)
        else
          let st2 := addPhys st1 tn { cols := colQuery, rows := [] }
          if create then .ok (refresh st2)
          else
            match insertOp schema tn (dfRows df) st2 with
            | .error e => .error e
            | .ok st3 => .ok (refresh st3)

/-- Embedding of `Sql.write_table(data, table_name, if_exists, create,
index, char_limit)`.  The two `raise ValueError("...") % table_name`
statements in the source apply `%` to the exception object itself, which
raises TypeError — modelled as `.typeError`.  The `replace` branch calls
`drop_table` and `insert` with the ALREADY-qualified name, and those
functions qualify again. -/
def write_table (schema : Option String) (df : DF) (table_name : String)
    (if_exists : String) (create index : Bool) (char_limit : Nat) (st : DB) :
    Except (PyErr × DB) DB :=
  let tn := qualify schema table_name
  if ¬ (if_exists = "append" ∨ if_exists = "fail" ∨ if_exists = "replace") then
    .error (.typeError, st)
  else if hasTablePhys st tn then
    if if_exists = "fail" then .error (.typeError, st)
    else if if_exists = "replace" then
      match drop_table schema tn st with
      | .error e => .error e
      | .ok st1 =>
        match metaRemove st1 tn with
        | .error e => .error e
        | .ok st2 => createPath schema df tn create index char_limit st2
    else insertOp schema tn (dfRows df) st
  else createPath schema df tn create index char_limit st

/-- Embedding of `Sql.import_table(table_name)` (record-list output):
schema-qualify, index the reflected catalog (KeyError when absent), run
`SELECT *` against the physical table (database error when it is not
physically present) and return the rows. -/
def importTable (schema : Option String) (table_name : String) (st : DB) :
    Except (PyErr × DB) (List Row) :=
  let tn := qualify schema table_name
  match lookupMeta st tn with
  | Option.none => .error (.keyError, st)
  | Option.some _ =>
    match lookupPhys st tn with
    | Option.none => .error (.statementError, st)
    | Option.some td => .ok td.rows

/-- The opening brace character, written via its code point. -/
def lbrace : Char := Char.ofNat 123

/-- The closing brace character, written via its code point. -/
def rbrace : Char := Char.ofNat 125

/-- Core of the Python `str.format` model: scan the template; on a
single-digit positional placeholder splice in the corresponding argument
(whose characters are not rescanned, as in Python); every other character is
copied. -/
def pyFormatAux (args : List String) : List Char → List Char
  | [] => []
  | c1 :: rest =>
    match rest with
    | c2 :: c3 :: rest2 =>
      if c1 = lbrace ∧ c3 = rbrace then
        (args.getD (c2.toNat - 48) "").data ++ pyFormatAux args rest2
      else
        c1 :: pyFormatAux args (c2 :: c3 :: rest2)
    | _ => c1 :: rest

/-- Python `template.format(args...)` restricted to the single-digit
positional placeholders the source uses. -/
def pyFormat (tmpl : String) (args : List String) : String :=
  ⟨pyFormatAux args tmpl.data⟩

/-- Python `s.replace(old, new)` for a single-character pattern: every
occurrence of the character is replaced. -/
def replaceChar (s : String) (cfrom cto : Char) : String :=
  ⟨s.data.map (fun c => if c = cfrom then cto else c)⟩

/-- Python truthiness of an optional string parameter: `None` and the empty
string are falsy. -/
def truthy : Option String → Bool
  | Option.none => false
  | Option.some s => s ≠ ""

/-- The backend identifiers the URL builders recognise. -/
def supportedBackend (db_sys : String) : Bool :=
  db_sys == "mssql" || db_sys == "sqlite" || db_sys == "vertica" ||
    db_sys == "postgres" || db_sys == "redshift"

/-- Embedding of `Sql._dsn_url`: one branch per backend; the mssql branch
splits on `trusted`.  There is no final else, so an unrecognised backend
leaves `engine_url` unbound and `return engine_url` raises
UnboundLocalError (a NameError). -/
def dsn_url (db_sys : String) (trusted : Bool) (uid pwd dsn : String) :
    Except PyErr String :=
  if db_sys = "mssql" then
    if trusted then .ok (pyFormat "mssql+pyodbc://{0}" [dsn])
    else .ok (pyFormat "mssql+pyodbc://{0}:{1}@{2}" [uid, pwd, dsn])
  else if db_sys = "sqlite" then .ok (pyFormat "sqlite:///{0}" [dsn])
  else if db_sys = "vertica" then
    .ok (pyFormat "vertica+pyodbc://{0}:{1}@{2}" [uid, pwd, dsn])
  else if db_sys = "postgres" then
    .ok (pyFormat "postgresql+psycopg2://{0}:{1}@{2}" [uid, pwd, dsn])
  else if db_sys = "redshift" then
    .ok (pyFormat "redshift+psycopg2://{0}:{1}@{2}" [uid, pwd, dsn])
  else .error .nameError

/-- Embedding of `Sql._var_url`: one branch per backend.  For mssql without
trusted authentication, a truthy `driver` has its spaces replaced by `+` and
is appended to the template as `?driver=...` BEFORE the five positional
arguments are substituted.  The sqlite branch uses `host` as a filesystem
path and never embeds credentials.  As in `_dsn_url`, an unrecognised
backend raises UnboundLocalError at the return. -/
def var_url (db_sys : String) (trusted : Bool) (uid pwd host port db : String)
    (driver : Option String) : Except PyErr String :=
  if db_sys = "mssql" then
    if trusted then .ok (pyFormat "mssql+pyodbc://{0}:{1}/{2}" [host, port, db])
    else
      let base := "mssql+pyodbc://{0}:{1}@{2}:{3}/{4}"
      let base :=
        if truthy driver then
          base ++ pyFormat "?driver={0}" [replaceChar (driver.getD "") ' ' '+']
        else base
      .ok (pyFormat base [uid, pwd, host, port, db])
  else if db_sys = "sqlite" then .ok (pyFormat "sqlite:///{0}" [host])
  else if db_sys = "vertica" then
    .ok (pyFormat "vertica+pyodbc://{0}:{1}@{2}:{3}/{4}" [uid, pwd, host, port, db])
  else if db_sys = "postgres" then
    .ok (pyFormat "postgresql+psycopg2://{0}:{1}@{2}:{3}/{4}" [uid, pwd, host, port, db])
  else if db_sys = "redshift" then
    .ok (pyFormat "redshift+psycopg2://{0}:{1}@{2}:{3}/{4}" [uid, pwd, host, port, db])
  else .error .nameError

/-- Embedding of the engine-url dispatch in `Sql.__init__` (source lines
89-94): a truthy dsn selects `_dsn_url`; otherwise a fully truthy
(db, host, port) triple selects `_var_url`; otherwise the constructor raises
`ValueError("Must supply either dsn or db, host and port")`.  The subsequent
network connection of `_connect` is outside the resolver and not modelled. -/
def resolveEngineUrl (db_sys : String) (dsn db host port : Option String)
    (trusted : Bool) (uid pwd : String) (driver : Option String) :
    Except PyErr String :=
  if truthy dsn then dsn_url db_sys trusted uid pwd (dsn.getD "")
  else if truthy db && truthy host && truthy port then
    var_url db_sys trusted uid pwd (host.getD "") (port.getD "") (db.getD "") driver
  else .error .valueError

deriving instance DecidableEq for Except

/-- Sample column used by the concrete scenarios below. -/
def colA : Col := { name := "a", dtype := .BigInteger }

/-- A session state with no tables at all. -/
def stEmpty : DB := { phys := [], meta := [] }

/-- A session state in which table `t` exists physically and is reflected in
the catalog, with a single big-integer column `a` and no rows. -/
def st0 : DB := { phys := [("t", { cols := [colA], rows := [] })], meta := [("t", [colA])] }

/-- A one-column one-row dataframe with an integer value. -/
def df0 : DF := { dcols := [("a", [.int 1])], idx := [.int 0] }

/-- A one-column one-row dataframe with a text value and integer index. -/
def df9 : DF := { dcols := [("a", [.str "x"])], idx := [.int 1] }

/-- A session state in which the schema-qualified table `s.t` exists
physically and in the catalog. -/
def st10 : DB :=
  { phys := [("s.t", { cols := [colA], rows := [] })], meta := [("s.t", [colA])] }

/-- Dataframe whose first row holds an integer and whose second row holds a
string. -/
def dfw1 : DF := { dcols := [("a", [.int 1, .str "y"])], idx := [.int 0, .int 1] }

/-- Dataframe agreeing with `dfw1` on column names and on the first row but
differing in the second row. -/
def dfw2 : DF := { dcols := [("a", [.int 1, .float])], idx := [.int 0, .int 1] }

/-- The column list produced for the `index=True` creation scenario: the
`Index` column prepended first, typed from the first index value, flagged
`indexed` (SQLAlchemy `index=True`) and NOT `primaryKey`. -/
def c9cols : List Col :=
  [{ name := "Index", dtype := .BigInteger, indexed := true, primaryKey := false },
   { name := "a", dtype := .String 255, indexed := false, primaryKey := false }]
lemma pyFormatAux_cons_ne (args : List String) (c : Char) (l : List Char)
    (h : ¬ c = lbrace) : pyFormatAux args (c :: l) = c :: pyFormatAux args l := by
  match l with
  | [] => rfl
  | [c2] => rfl
  | c2 :: c3 :: t => simp [pyFormatAux, h]

lemma pyFormatAux_append (args : List String) (pre rest : List Char)
    (h : ∀ c ∈ pre, ¬ c = lbrace) :
    pyFormatAux args (pre ++ rest) = pre ++ pyFormatAux args rest := by
  induction pre with
  | nil => rfl
  | cons c t ih =>
    rw [List.cons_append, pyFormatAux_cons_ne args c (t ++ rest) (h c (List.mem_cons_self c t)),
      ih (fun x hx => h x (List.mem_cons_of_mem _ hx))]
    rfl

lemma pyFormatAux_sub (args : List String) (d : Char) (rest : List Char) :
    pyFormatAux args (lbrace :: d :: rbrace :: rest) =
      (args.getD (d.toNat - 48) "").data ++ pyFormatAux args rest := by
  simp [pyFormatAux]

lemma pyFormatAux_self (args : List String) (l : List Char)
    (h : ∀ c ∈ l, ¬ c = lbrace) : pyFormatAux args l = l := by
  have h2 := pyFormatAux_append args l [] h
  simpa [pyFormatAux] using h2

lemma pyFormat_one (p0 p1 : String) (args : List String)
    (h0 : ∀ c ∈ p0.data, ¬ c = lbrace) (h1 : ∀ c ∈ p1.data, ¬ c = lbrace) :
    pyFormat (p0 ++ "{0}" ++ p1) args = p0 ++ args.getD 0 "" ++ p1 := by
  apply String.ext
  show pyFormatAux args (p0 ++ "{0}" ++ p1).data = _
  have hd : (p0 ++ "{0}" ++ p1).data = p0.data ++ (lbrace :: '0' :: rbrace :: p1.data) := by
    show (p0.data ++ "{0}".data) ++ p1.data = _
    rw [List.append_assoc]
    congr 1
  rw [hd, pyFormatAux_append args _ _ h0, pyFormatAux_sub, pyFormatAux_self args _ h1]
  show p0.data ++ ((args.getD 0 "").data ++ p1.data) = (p0 ++ args.getD 0 "" ++ p1).data
  show _ = (p0.data ++ (args.getD 0 "").data) ++ p1.data
  rw [List.append_assoc]

lemma pyFormat_three (p0 p1 p2 p3 : String) (args : List String)
    (h0 : ∀ c ∈ p0.data, ¬ c = lbrace) (h1 : ∀ c ∈ p1.data, ¬ c = lbrace)
    (h2 : ∀ c ∈ p2.data, ¬ c = lbrace) (h3 : ∀ c ∈ p3.data, ¬ c = lbrace) :
    pyFormat (p0 ++ "{0}" ++ p1 ++ "{1}" ++ p2 ++ "{2}" ++ p3) args =
      p0 ++ args.getD 0 "" ++ p1 ++ args.getD 1 "" ++ p2 ++ args.getD 2 "" ++ p3 := by
  apply String.ext
  show pyFormatAux args (p0 ++ "{0}" ++ p1 ++ "{1}" ++ p2 ++ "{2}" ++ p3).data = _
  have c0 : "{0}".data = [lbrace, '0', rbrace] := rfl
  have c1 : "{1}".data = [lbrace, '1', rbrace] := rfl
  have c2 : "{2}".data = [lbrace, '2', rbrace] := rfl
  have hd : (p0 ++ "{0}" ++ p1 ++ "{1}" ++ p2 ++ "{2}" ++ p3).data
      = p0.data ++ (lbrace :: '0' :: rbrace :: (p1.data ++ (lbrace :: '1' :: rbrace ::
          (p2.data ++ (lbrace :: '2' :: rbrace :: p3.data))))) := by
    show (((((p0.data ++ "{0}".data) ++ p1.data) ++ "{1}".data) ++ p2.data) ++ "{2}".data)
        ++ p3.data = _
    simp [c0, c1, c2, List.append_assoc]
    decide
  rw [hd, pyFormatAux_append args _ _ h0, pyFormatAux_sub,
    pyFormatAux_append args _ _ h1, pyFormatAux_sub,
    pyFormatAux_append args _ _ h2, pyFormatAux_sub, pyFormatAux_self args _ h3]
  show p0.data ++ ((args.getD 0 "").data ++ (p1.data ++ ((args.getD 1 "").data ++
      (p2.data ++ ((args.getD 2 "").data ++ p3.data))))) = _
  show _ = (((((p0.data ++ (args.getD 0 "").data) ++ p1.data) ++ (args.getD 1 "").data)
      ++ p2.data) ++ (args.getD 2 "").data) ++ p3.data
  simp [List.append_assoc]

lemma pyFormat_five (p0 p1 p2 p3 p4 p5 : String) (args : List String)
    (h0 : ∀ c ∈ p0.data, ¬ c = lbrace) (h1 : ∀ c ∈ p1.data, ¬ c = lbrace)
    (h2 : ∀ c ∈ p2.data, ¬ c = lbrace) (h3 : ∀ c ∈ p3.data, ¬ c = lbrace)
    (h4 : ∀ c ∈ p4.data, ¬ c = lbrace) (h5 : ∀ c ∈ p5.data, ¬ c = lbrace) :
    pyFormat (p0 ++ "{0}" ++ p1 ++ "{1}" ++ p2 ++ "{2}" ++ p3 ++ "{3}" ++ p4 ++ "{4}" ++ p5)
        args =
      p0 ++ args.getD 0 "" ++ p1 ++ args.getD 1 "" ++ p2 ++ args.getD 2 "" ++ p3 ++
        args.getD 3 "" ++ p4 ++ args.getD 4 "" ++ p5 := by
  apply String.ext
  show pyFormatAux args
      (p0 ++ "{0}" ++ p1 ++ "{1}" ++ p2 ++ "{2}" ++ p3 ++ "{3}" ++ p4 ++ "{4}" ++ p5).data = _
  have c0 : "{0}".data = [lbrace, '0', rbrace] := rfl
  have c1 : "{1}".data = [lbrace, '1', rbrace] := rfl
  have c2 : "{2}".data = [lbrace, '2', rbrace] := rfl
  have c3 : "{3}".data = [lbrace, '3', rbrace] := rfl
  have c4 : "{4}".data = [lbrace, '4', rbrace] := rfl
  have hd : (p0 ++ "{0}" ++ p1 ++ "{1}" ++ p2 ++ "{2}" ++ p3 ++ "{3}" ++ p4 ++ "{4}" ++ p5).data
      = p0.data ++ (lbrace :: '0' :: rbrace :: (p1.data ++ (lbrace :: '1' :: rbrace ::
          (p2.data ++ (lbrace :: '2' :: rbrace :: (p3.data ++ (lbrace :: '3' :: rbrace ::
            (p4.data ++ (lbrace :: '4' :: rbrace :: p5.data))))))))) := by
    show (((((((((p0.data ++ "{0}".data) ++ p1.data) ++ "{1}".data) ++ p2.data) ++ "{2}".data)
        ++ p3.data) ++ "{3}".data) ++ p4.data) ++ "{4}".data) ++ p5.data = _
    simp [c0, c1, c2, c3, c4, List.append_assoc]
    decide
  rw [hd, pyFormatAux_append args _ _ h0, pyFormatAux_sub,
    pyFormatAux_append args _ _ h1, pyFormatAux_sub,
    pyFormatAux_append args _ _ h2, pyFormatAux_sub,
    pyFormatAux_append args _ _ h3, pyFormatAux_sub,
    pyFormatAux_append args _ _ h4, pyFormatAux_sub, pyFormatAux_self args _ h5]
  show p0.data ++ ((args.getD 0 "").data ++ (p1.data ++ ((args.getD 1 "").data ++
      (p2.data ++ ((args.getD 2 "").data ++ (p3.data ++ ((args.getD 3 "").data ++
        (p4.data ++ ((args.getD 4 "").data ++ p5.data))))))))) = _
  show _ = (((((((((p0.data ++ (args.getD 0 "").data) ++ p1.data) ++ (args.getD 1 "").data)
      ++ p2.data) ++ (args.getD 2 "").data) ++ p3.data) ++ (args.getD 3 "").data) ++ p4.data)
        ++ (args.getD 4 "").data) ++ p5.data
  simp [List.append_assoc]


lemma url_dsn_mssql_trusted (u p d : String) :
    dsn_url "mssql" true u p d = .ok ("mssql+pyodbc://" ++ d) := by
  have ht : ("mssql+pyodbc://{0}" : String) = "mssql+pyodbc://" ++ "{0}" ++ "" := by decide
  show Except.ok (pyFormat "mssql+pyodbc://{0}" [d]) = _
  rw [ht, pyFormat_one _ _ _ (by decide) (by decide)]
  show Except.ok ("mssql+pyodbc://" ++ d ++ "") = _
  rw [String.append_empty]

lemma url_dsn_sqlite (t : Bool) (u p d : String) :
    dsn_url "sqlite" t u p d = .ok ("sqlite:///" ++ d) := by
  have ht : ("sqlite:///{0}" : String) = "sqlite:///" ++ "{0}" ++ "" := by decide
  cases t <;>
    (show Except.ok (pyFormat "sqlite:///{0}" [d]) = _
     rw [ht, pyFormat_one _ _ _ (by decide) (by decide)]
     show Except.ok ("sqlite:///" ++ d ++ "") = _
     rw [String.append_empty])

lemma url_dsn_vertica (t : Bool) (u p d : String) :
    dsn_url "vertica" t u p d = .ok ("vertica+pyodbc://" ++ u ++ ":" ++ p ++ "@" ++ d) := by
  have ht : ("vertica+pyodbc://{0}:{1}@{2}" : String) =
      "vertica+pyodbc://" ++ "{0}" ++ ":" ++ "{1}" ++ "@" ++ "{2}" ++ "" := by decide
  cases t <;>
    (show Except.ok (pyFormat "vertica+pyodbc://{0}:{1}@{2}" [u, p, d]) = _
     rw [ht, pyFormat_three _ _ _ _ _ (by decide) (by decide) (by decide) (by decide)]
     show Except.ok ("vertica+pyodbc://" ++ u ++ ":" ++ p ++ "@" ++ d ++ "") = _
     rw [String.append_empty])

lemma url_dsn_postgres (t : Bool) (u p d : String) :
    dsn_url "postgres" t u p d = .ok ("postgresql+psycopg2://" ++ u ++ ":" ++ p ++ "@" ++ d) := by
  have ht : ("postgresql+psycopg2://{0}:{1}@{2}" : String) =
      "postgresql+psycopg2://" ++ "{0}" ++ ":" ++ "{1}" ++ "@" ++ "{2}" ++ "" := by decide
  cases t <;>
    (show Except.ok (pyFormat "postgresql+psycopg2://{0}:{1}@{2}" [u, p, d]) = _
     rw [ht, pyFormat_three _ _ _ _ _ (by decide) (by decide) (by decide) (by decide)]
     show Except.ok ("postgresql+psycopg2://" ++ u ++ ":" ++ p ++ "@" ++ d ++ "") = _
     rw [String.append_empty])

lemma url_dsn_redshift (t : Bool) (u p d : String) :
    dsn_url "redshift" t u p d = .ok ("redshift+psycopg2://" ++ u ++ ":" ++ p ++ "@" ++ d) := by
  have ht : ("redshift+psycopg2://{0}:{1}@{2}" : String) =
      "redshift+psycopg2://" ++ "{0}" ++ ":" ++ "{1}" ++ "@" ++ "{2}" ++ "" := by decide
  cases t <;>
    (show Except.ok (pyFormat "redshift+psycopg2://{0}:{1}@{2}" [u, p, d]) = _
     rw [ht, pyFormat_three _ _ _ _ _ (by decide) (by decide) (by decide) (by decide)]
     show Except.ok ("redshift+psycopg2://" ++ u ++ ":" ++ p ++ "@" ++ d ++ "") = _
     rw [String.append_empty])

lemma url_var_mssql_trusted (u p h prt db : String) (drv : Option String) :
    var_url "mssql" true u p h prt db drv =
      .ok ("mssql+pyodbc://" ++ h ++ ":" ++ prt ++ "/" ++ db) := by
  have ht : ("mssql+pyodbc://{0}:{1}/{2}" : String) =
      "mssql+pyodbc://" ++ "{0}" ++ ":" ++ "{1}" ++ "/" ++ "{2}" ++ "" := by decide
  show Except.ok (pyFormat "mssql+pyodbc://{0}:{1}/{2}" [h, prt, db]) = _
  rw [ht, pyFormat_three _ _ _ _ _ (by decide) (by decide) (by decide) (by decide)]
  show Except.ok ("mssql+pyodbc://" ++ h ++ ":" ++ prt ++ "/" ++ db ++ "") = _
  rw [String.append_empty]

lemma url_var_mssql_nodriver (u p h prt db : String) :
    var_url "mssql" false u p h prt db Option.none =
      .ok ("mssql+pyodbc://" ++ u ++ ":" ++ p ++ "@" ++ h ++ ":" ++ prt ++ "/" ++ db) := by
  have ht : ("mssql+pyodbc://{0}:{1}@{2}:{3}/{4}" : String) =
      "mssql+pyodbc://" ++ "{0}" ++ ":" ++ "{1}" ++ "@" ++ "{2}" ++ ":" ++ "{3}" ++ "/" ++
        "{4}" ++ "" := by decide
  show Except.ok (pyFormat "mssql+pyodbc://{0}:{1}@{2}:{3}/{4}" [u, p, h, prt, db]) = _
  rw [ht, pyFormat_five _ _ _ _ _ _ _ (by decide) (by decide) (by decide) (by decide)
    (by decide) (by decide)]
  show Except.ok ("mssql+pyodbc://" ++ u ++ ":" ++ p ++ "@" ++ h ++ ":" ++ prt ++ "/" ++ db
      ++ "") = _
  rw [String.append_empty]

lemma url_var_sqlite (t : Bool) (u p h prt db : String) (drv : Option String) :
    var_url "sqlite" t u p h prt db drv = .ok ("sqlite:///" ++ h) := by
  have ht : ("sqlite:///{0}" : String) = "sqlite:///" ++ "{0}" ++ "" := by decide
  cases t <;>
    (show Except.ok (pyFormat "sqlite:///{0}" [h]) = _
     rw [ht, pyFormat_one _ _ _ (by decide) (by decide)]
     show Except.ok ("sqlite:///" ++ h ++ "") = _
     rw [String.append_empty])

lemma url_var_vertica (t : Bool) (u p h prt db : String) (drv : Option String) :
    var_url "vertica" t u p h prt db drv =
      .ok ("vertica+pyodbc://" ++ u ++ ":" ++ p ++ "@" ++ h ++ ":" ++ prt ++ "/" ++ db) := by
  have ht : ("vertica+pyodbc://{0}:{1}@{2}:{3}/{4}" : String) =
      "vertica+pyodbc://" ++ "{0}" ++ ":" ++ "{1}" ++ "@" ++ "{2}" ++ ":" ++ "{3}" ++ "/" ++
        "{4}" ++ "" := by decide
  cases t <;>
    (show Except.ok (pyFormat "vertica+pyodbc://{0}:{1}@{2}:{3}/{4}" [u, p, h, prt, db]) = _
     rw [ht, pyFormat_five _ _ _ _ _ _ _ (by decide) (by decide) (by decide) (by decide)
       (by decide) (by decide)]
     show Except.ok ("vertica+pyodbc://" ++ u ++ ":" ++ p ++ "@" ++ h ++ ":" ++ prt ++ "/"
        ++ db ++ "") = _
     rw [String.append_empty])

lemma url_var_postgres (t : Bool) (u p h prt db : String) (drv : Option String) :
    var_url "postgres" t u p h prt db drv =
      .ok ("postgresql+psycopg2://" ++ u ++ ":" ++ p ++ "@" ++ h ++ ":" ++ prt ++ "/" ++ db) := by
  have ht : ("postgresql+psycopg2://{0}:{1}@{2}:{3}/{4}" : String) =
      "postgresql+psycopg2://" ++ "{0}" ++ ":" ++ "{1}" ++ "@" ++ "{2}" ++ ":" ++ "{3}" ++ "/"
        ++ "{4}" ++ "" := by decide
  cases t <;>
    (show Except.ok (pyFormat "postgresql+psycopg2://{0}:{1}@{2}:{3}/{4}" [u, p, h, prt, db]) = _
     rw [ht, pyFormat_five _ _ _ _ _ _ _ (by decide) (by decide) (by decide) (by decide)
       (by decide) (by decide)]
     show Except.ok ("postgresql+psycopg2://" ++ u ++ ":" ++ p ++ "@" ++ h ++ ":" ++ prt ++ "/"
        ++ db ++ "") = _
     rw [String.append_empty])

lemma url_var_redshift (t : Bool) (u p h prt db : String) (drv : Option String) :
    var_url "redshift" t u p h prt db drv =
      .ok ("redshift+psycopg2://" ++ u ++ ":" ++ p ++ "@" ++ h ++ ":" ++ prt ++ "/" ++ db) := by
  have ht : ("redshift+psycopg2://{0}:{1}@{2}:{3}/{4}" : String) =
      "redshift+psycopg2://" ++ "{0}" ++ ":" ++ "{1}" ++ "@" ++ "{2}" ++ ":" ++ "{3}" ++ "/"
        ++ "{4}" ++ "" := by decide
  cases t <;>
    (show Except.ok (pyFormat "redshift+psycopg2://{0}:{1}@{2}:{3}/{4}" [u, p, h, prt, db]) = _
     rw [ht, pyFormat_five _ _ _ _ _ _ _ (by decide) (by decide) (by decide) (by decide)
       (by decide) (by decide)]
     show Except.ok ("redshift+psycopg2://" ++ u ++ ":" ++ p ++ "@" ++ h ++ ":" ++ prt ++ "/"
        ++ db ++ "") = _
     rw [String.append_empty])

lemma refresh_phys (st : DB) : (refresh st).phys = st.phys := rfl

lemma erasePhys_meta (st : DB) (tn : String) : (erasePhys st tn).meta = st.meta := rfl

lemma hasTablePhys_erase (st : DB) (tn : String) :
    hasTablePhys (erasePhys st tn) tn = false := by
  simp only [hasTablePhys, erasePhys]
  simp [List.any_eq_true, List.mem_filter]

lemma metaRemove_ok_phys (st st' : DB) (tn : String)
    (h : metaRemove st tn = .ok st') : st'.phys = st.phys := by
  unfold metaRemove at h
  by_cases hc : containsMeta st tn = true
  · simp [hc] at h
    rw [← h]
  · simp [hc] at h

lemma lookupPhys_of_hasTable (st : DB) (tn : String) (h : hasTablePhys st tn = true) :
    ∃ td, lookupPhys st tn = Option.some td := by
  unfold hasTablePhys at h
  unfold lookupPhys
  rcases List.any_eq_true.mp h with ⟨p, hp, hp2⟩
  have : (st.phys.find? (fun q => q.1 == tn)).isSome := by
    rw [List.find?_isSome]
    exact ⟨p, hp, hp2⟩
  rcases Option.isSome_iff_exists.mp this with ⟨q, hq⟩
  exact ⟨q.2, by rw [hq]; rfl⟩

lemma hasTable_of_lookupPhys (st : DB) (tn : String) (td : TableData)
    (h : lookupPhys st tn = Option.some td) : hasTablePhys st tn = true := by
  unfold lookupPhys at h
  unfold hasTablePhys
  cases hf : st.phys.find? (fun q => q.1 == tn) with
  | none => rw [hf] at h; exact absurd h (by simp)
  | some q =>
    have hm := List.mem_of_find?_eq_some hf
    have hq := List.find?_some hf
    exact List.any_eq_true.mpr ⟨q, hm, hq⟩

lemma execRows_eq (cols : List Col) (td : TableData) (rows : List Row) :
    execRows cols td rows =
      if rows.all (rowOk cols) then Option.some { td with rows := td.rows ++ rows }
      else Option.none := by
  induction rows generalizing td with
  | nil => simp [execRows]
  | cons r rs ih =>
    by_cases hr : rowOk cols r = true
    · simp only [execRows, hr, if_true, ih, List.all_cons, Bool.true_and]
      by_cases hall : rs.all (rowOk cols) = true <;> simp [hall]
    · simp [execRows, hr]

lemma find?_append_of_some {α : Type} (l1 l2 : List α) (p : α → Bool) (a : α)
    (h : l1.find? p = Option.some a) : (l1 ++ l2).find? p = Option.some a := by
  induction l1 with
  | nil => simp [List.find?] at h
  | cons x t ih =>
    by_cases hx : p x = true
    · rw [List.cons_append]
      simp only [List.find?, hx] at h ⊢
      exact h
    · have hxf : p x = false := by simpa using hx
      rw [List.cons_append]
      simp only [List.find?, hxf] at h ⊢
      exact ih h

lemma find?_map_upd (l : List (String × TableData)) (tn : String) (td' : TableData)
    (h : (l.find? (fun p => p.1 == tn)).isSome) :
    ((l.map (fun p => if p.1 == tn then (tn, td') else p)).find? (fun p => p.1 == tn))
      = Option.some (tn, td') := by
  induction l with
  | nil => simp [List.find?] at h
  | cons x t ih =>
    by_cases hx : (x.1 == tn) = true
    · rw [List.map_cons, if_pos hx]
      simp only [List.find?]
      have : ((tn, td').1 == tn) = true := by simp
      simp only [this]
    · have hxf : (x.1 == tn) = false := by simpa using hx
      have h2 : (t.find? (fun p => p.1 == tn)).isSome := by
        simp only [List.find?, hxf] at h
        exact h
      rw [List.map_cons, if_neg hx]
      simp only [List.find?, hxf]
      exact ih h2

lemma lookupPhys_refresh (st : DB) (tn : String) :
    lookupPhys (refresh st) tn = lookupPhys st tn := rfl

lemma lookupPhys_updPhys_self (st : DB) (tn : String) (td td' : TableData)
    (h : lookupPhys st tn = Option.some td) :
    lookupPhys (updPhys st tn td') tn = Option.some td' := by
  unfold lookupPhys at h ⊢
  unfold updPhys
  have hs : (st.phys.find? (fun p => p.1 == tn)).isSome := by
    cases hf : st.phys.find? (fun p => p.1 == tn) with
    | none => rw [hf] at h; exact absurd h (by simp)
    | some q => simp
  rw [find?_map_upd st.phys tn td' hs]
  rfl

lemma lookupMeta_refresh_of_some (st : DB) (tn : String) (cs : List Col)
    (h : lookupMeta st tn = Option.some cs) :
    lookupMeta (refresh st) tn = Option.some cs := by
  unfold lookupMeta at h ⊢
  cases hf : st.meta.find? (fun p => p.1 == tn) with
  | none => rw [hf] at h; exact absurd h (by simp)
  | some q =>
    rw [hf] at h
    show ((st.meta ++ _).find? (fun p => p.1 == tn)).map Prod.snd = _
    rw [find?_append_of_some _ _ _ q hf]
    exact h

lemma insert_absent (sch : Option String) (t : String) (rows : List Row) (st : DB)
    (h : lookupMeta st (qualify sch t) = Option.none) :
    insertOp sch t rows st = .error (.keyError, st) := by
  unfold insertOp
  dsimp only
  rw [h]

lemma insert_error_state (sch : Option String) (t : String) (rows : List Row) (st : DB)
    (e : PyErr) (st' : DB) (h : insertOp sch t rows st = .error (e, st')) : st' = st := by
  unfold insertOp at h
  dsimp only at h
  cases hm : lookupMeta st (qualify sch t) with
  | none =>
    rw [hm] at h
    injection h with h1
    injection h1 with h2 h3
    exact h3.symm
  | some cs =>
    rw [hm] at h
    dsimp only at h
    cases hp : lookupPhys st (qualify sch t) with
    | none =>
      rw [hp] at h
      injection h with h1
      injection h1 with h2 h3
      exact h3.symm
    | some td0 =>
      rw [hp] at h
      dsimp only at h
      rw [execRows_eq] at h
      by_cases hall : rows.all (rowOk td0.cols) = true
      · rw [if_pos hall] at h
        cases h
      · rw [if_neg hall] at h
        injection h with h1
        injection h1 with h2 h3
        exact h3.symm

lemma insert_ok (sch : Option String) (t : String) (rows : List Row) (st : DB)
    (td : TableData) (st' : DB) (hp : lookupPhys st (qualify sch t) = Option.some td)
    (hok : insertOp sch t rows st = .ok st') :
    rows.all (rowOk td.cols) = true ∧
      lookupPhys st' (qualify sch t) = Option.some { td with rows := td.rows ++ rows } := by
  unfold insertOp at hok
  dsimp only at hok
  cases hm : lookupMeta st (qualify sch t) with
  | none =>
    rw [hm] at hok
    cases hok
  | some cs =>
    rw [hm] at hok
    dsimp only at hok
    rw [hp] at hok
    dsimp only at hok
    rw [execRows_eq] at hok
    by_cases hall : rows.all (rowOk td.cols) = true
    · rw [if_pos hall] at hok
      injection hok with h2
      refine ⟨hall, ?_⟩
      rw [← h2, lookupPhys_refresh]
      exact lookupPhys_updPhys_self st (qualify sch t) td _ hp
    · rw [if_neg hall] at hok
      cases hok

lemma insert_badrow (sch : Option String) (t : String) (rows : List Row) (st : DB)
    (td : TableData) (cs : List Col) (hm : lookupMeta st (qualify sch t) = Option.some cs)
    (hp : lookupPhys st (qualify sch t) = Option.some td)
    (hfalse : rows.all (rowOk td.cols) = false) :
    insertOp sch t rows st = .error (.statementError, st) := by
  unfold insertOp
  dsimp only
  rw [hm]
  dsimp only
  rw [hp]
  dsimp only
  rw [execRows_eq, if_neg]
  simp [hfalse]

/-- Claim C4: `insert` on a table name absent from the reflected catalog
raises KeyError with the state unchanged, before any statement reaches the
database, and never creates the table; on any failure whatsoever the state
carried by the error is the entry state (the transaction commits nothing);
on success every row of the batch is appended to the target table; and when
the name is in the catalog but some row does not satisfy the target schema
the whole batch is rejected with the state unchanged. -/
theorem c4_insert_contract (sch : Option String) (t : String) (rows : List Row) (st : DB) :
    (lookupMeta st (qualify sch t) = Option.none →
      insertOp sch t rows st = .error (.keyError, st)) ∧
    (∀ e st', insertOp sch t rows st = .error (e, st') → st' = st) ∧
    (∀ td st', lookupPhys st (qualify sch t) = Option.some td →
      insertOp sch t rows st = .ok st' →
      rows.all (rowOk td.cols) = true ∧
      lookupPhys st' (qualify sch t) = Option.some { td with rows := td.rows ++ rows }) ∧
    (∀ td cs, lookupMeta st (qualify sch t) = Option.some cs →
      lookupPhys st (qualify sch t) = Option.some td →
      rows.all (rowOk td.cols) = false →
      insertOp sch t rows st = .error (.statementError, st)) :=
  ⟨fun h => insert_absent sch t rows st h,
   fun e st' h => insert_error_state sch t rows st e st' h,
   fun td st' hp hok => insert_ok sch t rows st td st' hp hok,
   fun td cs hm hp hfalse => insert_badrow sch t rows st td cs hm hp hfalse⟩

lemma drop_absent (sch : Option String) (t : String) (st : DB)
    (h : lookupMeta st (qualify sch t) = Option.none) :
    drop_table sch t st = .error (.keyError, st) := by
  unfold drop_table
  dsimp only
  rw [h]

lemma drop_present (sch : Option String) (t : String) (st : DB) (cs : List Col)
    (td : TableData) (hm : lookupMeta st (qualify sch t) = Option.some cs)
    (hp : lookupPhys st (qualify sch t) = Option.some td) :
    drop_table sch t st = .ok (refresh (erasePhys st (qualify sch t))) := by
  unfold drop_table
  dsimp only
  rw [hm]
  dsimp only
  rw [hp]

lemma drop_ok_state (sch : Option String) (t : String) (st st1 : DB)
    (h : drop_table sch t st = .ok st1) :
    st1 = refresh (erasePhys st (qualify sch t)) := by
  unfold drop_table at h
  dsimp only at h
  cases hm : lookupMeta st (qualify sch t) with
  | none =>
    rw [hm] at h
    cases h
  | some cs =>
    rw [hm] at h
    dsimp only at h
    cases hp : lookupPhys st (qualify sch t) with
    | none =>
      rw [hp] at h
      cases h
    | some td =>
      rw [hp] at h
      dsimp only at h
      injection h with h1
      exact h1.symm

lemma hasTablePhys_congr (st1 st2 : DB) (tn : String) (h : st2.phys = st1.phys) :
    hasTablePhys st2 tn = hasTablePhys st1 tn := by
  unfold hasTablePhys
  rw [h]

/-- Claim C5 (amended): `drop_table` raises KeyError when the table name is
not in the reflected catalog, leaving the state unchanged; when the name is
in the catalog and the table physically exists it drops the physical table
and refreshes — but the catalog entry for the name REMAINS afterwards,
because neither `table.drop` nor the add-only reflect removes it. -/
theorem c5_drop_table (sch : Option String) (t : String) (st : DB) :
    (lookupMeta st (qualify sch t) = Option.none →
      drop_table sch t st = .error (.keyError, st)) ∧
    (∀ cs td, lookupMeta st (qualify sch t) = Option.some cs →
      lookupPhys st (qualify sch t) = Option.some td →
      drop_table sch t st = .ok (refresh (erasePhys st (qualify sch t))) ∧
      hasTablePhys (refresh (erasePhys st (qualify sch t))) (qualify sch t) = false ∧
      lookupMeta (refresh (erasePhys st (qualify sch t))) (qualify sch t) =
        Option.some cs) := by
  refine ⟨fun h => drop_absent sch t st h, fun cs td hm hp => ?_⟩
  refine ⟨drop_present sch t st cs td hm hp, ?_, ?_⟩
  · show hasTablePhys (erasePhys st (qualify sch t)) (qualify sch t) = false
    exact hasTablePhys_erase st (qualify sch t)
  · apply lookupMeta_refresh_of_some
    exact hm

lemma write_table_replace_shape (sch : Option String) (df : DF) (t : String)
    (c i : Bool) (cl : Nat) (st : DB) :
    write_table sch df t "replace" c i cl st =
      if hasTablePhys st (qualify sch t) then
        match drop_table sch (qualify sch t) st with
        | .error e => .error e
        | .ok st1 =>
          match metaRemove st1 (qualify sch t) with
          | .error e => .error e
          | .ok st2 => createPath sch df (qualify sch t) c i cl st2
      else createPath sch df (qualify sch t) c i cl st := rfl

lemma write_table_fail_shape (sch : Option String) (df : DF) (t : String)
    (c i : Bool) (cl : Nat) (st : DB) :
    write_table sch df t "fail" c i cl st =
      if hasTablePhys st (qualify sch t) then .error (.typeError, st)
      else createPath sch df (qualify sch t) c i cl st := rfl

lemma write_table_append_shape (sch : Option String) (df : DF) (t : String)
    (c i : Bool) (cl : Nat) (st : DB) :
    write_table sch df t "append" c i cl st =
      if hasTablePhys st (qualify sch t) then insertOp sch (qualify sch t) (dfRows df) st
      else createPath sch df (qualify sch t) c i cl st := rfl

/-- Claim C3: `write_table(..., if_exists='fail')` on an existing table
always fails with no mutation (the carried state is the entry state), so a
second call without an intervening drop fails identically.  The raised
exception is a TypeError, not the intended table-exists ValueError, because
the source applies `%` to the ValueError object itself
(`raise ValueError("Table %s already exists.") % table_name`). -/
theorem c3_fail_no_mutation (sch : Option String) (df : DF) (t : String)
    (c i : Bool) (cl : Nat) (st : DB)
    (h : hasTablePhys st (qualify sch t) = true) :
    write_table sch df t "fail" c i cl st = .error (.typeError, st) := by
  rw [write_table_fail_shape, if_pos h]

/-- Claim C2 (amended): for an existing table, `write_table` with
`if_exists='replace'` is equivalent to `drop_table` followed by REMOVING the
stale catalog entry and then `write_table` with `if_exists='fail'`.  Without
the entry removal the second sequence is not equivalent: `drop_table` leaves
the catalog entry behind, so the create path of the `fail` call raises
InvalidRequestError (see `c2_counterexample`). -/
theorem c2_replace_equiv (df : DF) (t : String) (c i : Bool) (cl : Nat) (st : DB)
    (h : hasTablePhys st t = true) :
    write_table Option.none df t "replace" c i cl st =
      (match drop_table Option.none t st with
       | .error e => .error e
       | .ok st1 =>
         match metaRemove st1 t with
         | .error e => .error e
         | .ok st2 => write_table Option.none df t "fail" c i cl st2) := by
  rw [write_table_replace_shape]
  simp only [write_table_fail_shape, qualify]
  rw [if_pos h]
  cases hd : drop_table Option.none t st with
  | error e => rfl
  | ok st1 =>
    dsimp only
    cases hmr : metaRemove st1 t with
    | error e => rfl
    | ok st2 =>
      dsimp only
      have h1 : st1 = refresh (erasePhys st t) := drop_ok_state Option.none t st st1 hd
      have h2 : st2.phys = st1.phys := metaRemove_ok_phys st1 st2 t hmr
      have hfalse : hasTablePhys st2 t = false := by
        rw [hasTablePhys_congr st1 st2 t h2, h1]
        show hasTablePhys (erasePhys st t) t = false
        exact hasTablePhys_erase st t
      rw [if_neg]
      simp [hfalse]

lemma mapM_ok_of_forall {α β : Type} (l : List α) (f : α → Except PyErr β) (g : α → β)
    (h : ∀ x ∈ l, f x = .ok (g x)) : l.mapM f = .ok (l.map g) := by
  induction l with
  | nil => rfl
  | cons x t ih =>
    rw [List.mapM_cons, h x (List.mem_cons_self x t),
      ih (fun y hy => h y (List.mem_cons_of_mem _ hy))]
    rfl

lemma columnTypes_of_nonempty (df : DF) (cl : Nat) (hn : df.idx ≠ []) :
    columnTypes df cl = .ok (df.dcols.map (fun c => sql_dtypes (c.2.headD .pyNone) cl)) := by
  unfold columnTypes
  apply mapM_ok_of_forall
  intro x _
  cases hi : df.idx with
  | nil => exact absurd hi hn
  | cons v t => rfl

/-- Claim C8: when `write_table` creates a table, the type of every column
is `_sql_dtypes` applied to that column's first-row value alone, so two
dataframes agreeing on column names and on their first rows get identical
inferred column types regardless of later rows. -/
theorem c8_first_row_inference (df1 df2 : DF) (cl : Nat)
    (hn1 : df1.idx ≠ []) (hn2 : df2.idx ≠ [])
    (_hc : df1.dcols.map Prod.fst = df2.dcols.map Prod.fst)
    (hr : df1.dcols.map (fun c => c.2.headD .pyNone) =
          df2.dcols.map (fun c => c.2.headD .pyNone)) :
    columnTypes df1 cl = .ok (df1.dcols.map (fun c => sql_dtypes (c.2.headD .pyNone) cl)) ∧
    columnTypes df1 cl = columnTypes df2 cl := by
  have key : ∀ d : DF, d.dcols.map (fun c => sql_dtypes (c.2.headD .pyNone) cl) =
      (d.dcols.map (fun c => c.2.headD .pyNone)).map (fun v => sql_dtypes v cl) := by
    intro d
    rw [List.map_map]
    rfl
  refine ⟨columnTypes_of_nonempty df1 cl hn1, ?_⟩
  rw [columnTypes_of_nonempty df1 cl hn1, columnTypes_of_nonempty df2 cl hn2]
  rw [key df1, key df2, hr]

lemma dsn_url_ok (db_sys : String) (h : supportedBackend db_sys = true)
    (tr : Bool) (u p d : String) : ∃ url, dsn_url db_sys tr u p d = .ok url := by
  have h2 : db_sys = "mssql" ∨ db_sys = "sqlite" ∨ db_sys = "vertica" ∨
      db_sys = "postgres" ∨ db_sys = "redshift" := by
    have h3 : (((db_sys = "mssql" ∨ db_sys = "sqlite") ∨ db_sys = "vertica") ∨
        db_sys = "postgres") ∨ db_sys = "redshift" := by
      simpa [supportedBackend, Bool.or_eq_true] using h
    tauto
  rcases h2 with rfl | rfl | rfl | rfl | rfl <;> cases tr <;> exact ⟨_, rfl⟩

lemma var_url_ok (db_sys : String) (h : supportedBackend db_sys = true)
    (tr : Bool) (u p hn prt db : String) (drv : Option String) :
    ∃ url, var_url db_sys tr u p hn prt db drv = .ok url := by
  have h2 : db_sys = "mssql" ∨ db_sys = "sqlite" ∨ db_sys = "vertica" ∨
      db_sys = "postgres" ∨ db_sys = "redshift" := by
    have h3 : (((db_sys = "mssql" ∨ db_sys = "sqlite") ∨ db_sys = "vertica") ∨
        db_sys = "postgres") ∨ db_sys = "redshift" := by
      simpa [supportedBackend, Bool.or_eq_true] using h
    tauto
  rcases h2 with rfl | rfl | rfl | rfl | rfl <;> cases tr <;> exact ⟨_, rfl⟩

lemma unsupported_ne (db_sys : String) (h : supportedBackend db_sys = false) :
    ¬ db_sys = "mssql" ∧ ¬ db_sys = "sqlite" ∧ ¬ db_sys = "vertica" ∧
      ¬ db_sys = "postgres" ∧ ¬ db_sys = "redshift" := by
  have h3 : (((¬ db_sys = "mssql" ∧ ¬ db_sys = "sqlite") ∧ ¬ db_sys = "vertica") ∧
      ¬ db_sys = "postgres") ∧ ¬ db_sys = "redshift" := by
    simpa [supportedBackend, Bool.or_eq_true, not_or] using
      (by simp [h] : ¬ (supportedBackend db_sys = true))
  tauto

lemma dsn_url_unsupported (db_sys : String) (h : supportedBackend db_sys = false)
    (tr : Bool) (u p d : String) : dsn_url db_sys tr u p d = .error .nameError := by
  obtain ⟨h1, h2, h3, h4, h5⟩ := unsupported_ne db_sys h
  unfold dsn_url
  rw [if_neg h1, if_neg h2, if_neg h3, if_neg h4, if_neg h5]

lemma var_url_unsupported (db_sys : String) (h : supportedBackend db_sys = false)
    (tr : Bool) (u p hn prt db : String) (drv : Option String) :
    var_url db_sys tr u p hn prt db drv = .error .nameError := by
  obtain ⟨h1, h2, h3, h4, h5⟩ := unsupported_ne db_sys h
  unfold var_url
  rw [if_neg h1, if_neg h2, if_neg h3, if_neg h4, if_neg h5]

/-- Claim C6 (amended): the connection resolver fails in exactly two cases —
when neither a truthy dsn nor a fully truthy (db, host, port) triple is
supplied it raises the explicit configuration ValueError, and when the
backend identifier is unsupported the URL builders fall through every branch
and fail with UnboundLocalError (a NameError), not a deliberate
configuration error; for every supported backend with sufficient parameters
a URL is produced without failing. -/
theorem c6_resolver_cases (db_sys : String) (dsn db host port : Option String)
    (trusted : Bool) (uid pwd : String) (driver : Option String) :
    (truthy dsn = false → (truthy db && truthy host && truthy port) = false →
      resolveEngineUrl db_sys dsn db host port trusted uid pwd driver =
        .error .valueError) ∧
    (supportedBackend db_sys = false → truthy dsn = true →
      resolveEngineUrl db_sys dsn db host port trusted uid pwd driver =
        .error .nameError) ∧
    (supportedBackend db_sys = false → truthy dsn = false →
      (truthy db && truthy host && truthy port) = true →
      resolveEngineUrl db_sys dsn db host port trusted uid pwd driver =
        .error .nameError) ∧
    (supportedBackend db_sys = true → truthy dsn = true →
      ∃ url, resolveEngineUrl db_sys dsn db host port trusted uid pwd driver =
        .ok url) ∧
    (supportedBackend db_sys = true → truthy dsn = false →
      (truthy db && truthy host && truthy port) = true →
      ∃ url, resolveEngineUrl db_sys dsn db host port trusted uid pwd driver =
        .ok url) := by
  refine ⟨?_, ?_, ?_, ?_, ?_⟩
  · intro h1 h2
    simp [resolveEngineUrl, h1, h2]
  · intro hs htr
    simp only [resolveEngineUrl, htr, if_true]
    exact dsn_url_unsupported db_sys hs trusted uid pwd (dsn.getD "")
  · intro hs htr htriple
    simp only [resolveEngineUrl, htr, htriple, if_true]
    simp only [Bool.false_eq_true, if_false]
    exact var_url_unsupported db_sys hs trusted uid pwd (host.getD "") (port.getD "")
      (db.getD "") driver
  · intro hs htr
    simp only [resolveEngineUrl, htr, if_true]
    exact dsn_url_ok db_sys hs trusted uid pwd (dsn.getD "")
  · intro hs htr htriple
    simp only [resolveEngineUrl, htr, htriple, if_true]
    simp only [Bool.false_eq_true, if_false]
    exact var_url_ok db_sys hs trusted uid pwd (host.getD "") (port.getD "") (db.getD "")
      driver

lemma url_dsn_mssql (u p d : String) :
    dsn_url "mssql" false u p d = .ok ("mssql+pyodbc://" ++ u ++ ":" ++ p ++ "@" ++ d) := by
  have ht : ("mssql+pyodbc://{0}:{1}@{2}" : String) =
      "mssql+pyodbc://" ++ "{0}" ++ ":" ++ "{1}" ++ "@" ++ "{2}" ++ "" := by decide
  show Except.ok (pyFormat "mssql+pyodbc://{0}:{1}@{2}" [u, p, d]) = _
  rw [ht, pyFormat_three _ _ _ _ _ (by decide) (by decide) (by decide) (by decide)]
  show Except.ok ("mssql+pyodbc://" ++ u ++ ":" ++ p ++ "@" ++ d ++ "") = _
  rw [String.append_empty]

lemma url_var_mssql_driver (u p h prt db drv : String) (hne : drv ≠ "")
    (hbf : ∀ c ∈ (replaceChar drv ' ' '+').data, ¬ c = lbrace) :
    var_url "mssql" false u p h prt db (Option.some drv) =
      .ok ("mssql+pyodbc://" ++ u ++ ":" ++ p ++ "@" ++ h ++ ":" ++ prt ++ "/" ++ db ++
        "?driver=" ++ replaceChar drv ' ' '+') := by
  have htr : truthy (Option.some drv) = true := by simp [truthy, hne]
  have hdrv : pyFormat "?driver={0}" [replaceChar drv ' ' '+'] =
      "?driver=" ++ replaceChar drv ' ' '+' := by
    have ht : ("?driver={0}" : String) = "?driver=" ++ "{0}" ++ "" := by decide
    rw [ht, pyFormat_one _ _ _ (by decide) (by decide)]
    show "?driver=" ++ replaceChar drv ' ' '+' ++ "" = _
    rw [String.append_empty]
  show Except.ok (pyFormat (if truthy (Option.some drv) then
      "mssql+pyodbc://{0}:{1}@{2}:{3}/{4}" ++
        pyFormat "?driver={0}" [replaceChar ((Option.some drv).getD "") ' ' '+']
    else "mssql+pyodbc://{0}:{1}@{2}:{3}/{4}") [u, p, h, prt, db]) = _
  rw [htr]
  show Except.ok (pyFormat ("mssql+pyodbc://{0}:{1}@{2}:{3}/{4}" ++
      pyFormat "?driver={0}" [replaceChar drv ' ' '+']) [u, p, h, prt, db]) = _
  rw [hdrv]
  have hb : ("mssql+pyodbc://{0}:{1}@{2}:{3}/{4}" : String) =
      "mssql+pyodbc://" ++ "{0}" ++ ":" ++ "{1}" ++ "@" ++ "{2}" ++ ":" ++ "{3}" ++ "/" ++
        "{4}" := by decide
  have hb2 : ("mssql+pyodbc://{0}:{1}@{2}:{3}/{4}" : String) ++
      ("?driver=" ++ replaceChar drv ' ' '+') =
      "mssql+pyodbc://" ++ "{0}" ++ ":" ++ "{1}" ++ "@" ++ "{2}" ++ ":" ++ "{3}" ++ "/" ++
        "{4}" ++ ("?driver=" ++ replaceChar drv ' ' '+') :=
    congrArg (fun z => z ++ ("?driver=" ++ replaceChar drv ' ' '+')) hb
  have h5 : ∀ c ∈ ("?driver=" ++ replaceChar drv ' ' '+').data, ¬ c = lbrace := by
    intro c hc
    have hc2 : c ∈ "?driver=".data ++ (replaceChar drv ' ' '+').data := hc
    rcases List.mem_append.mp hc2 with hm | hm
    · have hall : ∀ x ∈ "?driver=".data, ¬ x = lbrace := by decide
      exact hall c hm
    · exact hbf c hm
  rw [hb2, pyFormat_five _ _ _ _ _ _ _ (by decide) (by decide) (by decide) (by decide)
    (by decide) h5]
  show Except.ok ("mssql+pyodbc://" ++ u ++ ":" ++ p ++ "@" ++ h ++ ":" ++ prt ++ "/" ++ db ++
      ("?driver=" ++ replaceChar drv ' ' '+')) = _
  rw [← String.append_assoc]

/-- Claim C7: for every (backend, mode) pair the produced connection string
matches its canonical template byte for byte; a driver override is appended
as a `?driver=` query parameter only for mssql in explicit non-trusted mode,
with every space in the driver name replaced by `+` (stated for driver names
whose normalised form contains no opening brace, which Python's `format`
would substitute); the sqlite URLs never embed credentials and use the host
(explicit mode) or the dsn alias (alias mode) as a filesystem path. -/
theorem c7_url_templates :
    (∀ u p d : String, dsn_url "mssql" true u p d = .ok ("mssql+pyodbc://" ++ d)) ∧
    (∀ u p d : String, dsn_url "mssql" false u p d =
      .ok ("mssql+pyodbc://" ++ u ++ ":" ++ p ++ "@" ++ d)) ∧
    (∀ (t : Bool) (u p d : String), dsn_url "sqlite" t u p d = .ok ("sqlite:///" ++ d)) ∧
    (∀ (t : Bool) (u p d : String), dsn_url "vertica" t u p d =
      .ok ("vertica+pyodbc://" ++ u ++ ":" ++ p ++ "@" ++ d)) ∧
    (∀ (t : Bool) (u p d : String), dsn_url "postgres" t u p d =
      .ok ("postgresql+psycopg2://" ++ u ++ ":" ++ p ++ "@" ++ d)) ∧
    (∀ (t : Bool) (u p d : String), dsn_url "redshift" t u p d =
      .ok ("redshift+psycopg2://" ++ u ++ ":" ++ p ++ "@" ++ d)) ∧
    (∀ (u p h prt db : String) (drv : Option String),
      var_url "mssql" true u p h prt db drv =
        .ok ("mssql+pyodbc://" ++ h ++ ":" ++ prt ++ "/" ++ db)) ∧
    (∀ u p h prt db : String, var_url "mssql" false u p h prt db Option.none =
      .ok ("mssql+pyodbc://" ++ u ++ ":" ++ p ++ "@" ++ h ++ ":" ++ prt ++ "/" ++ db)) ∧
    (∀ u p h prt db drv : String, drv ≠ "" →
      (∀ c ∈ (replaceChar drv ' ' '+').data, ¬ c = lbrace) →
      var_url "mssql" false u p h prt db (Option.some drv) =
        .ok ("mssql+pyodbc://" ++ u ++ ":" ++ p ++ "@" ++ h ++ ":" ++ prt ++ "/" ++ db ++
          "?driver=" ++ replaceChar drv ' ' '+')) ∧
    (∀ (t : Bool) (u p h prt db : String) (drv : Option String),
      var_url "sqlite" t u p h prt db drv = .ok ("sqlite:///" ++ h)) ∧
    (∀ (t : Bool) (u p h prt db : String) (drv : Option String),
      var_url "vertica" t u p h prt db drv =
        .ok ("vertica+pyodbc://" ++ u ++ ":" ++ p ++ "@" ++ h ++ ":" ++ prt ++ "/" ++ db)) ∧
    (∀ (t : Bool) (u p h prt db : String) (drv : Option String),
      var_url "postgres" t u p h prt db drv =
        .ok ("postgresql+psycopg2://" ++ u ++ ":" ++ p ++ "@" ++ h ++ ":" ++ prt ++ "/" ++
          db)) ∧
    (∀ (t : Bool) (u p h prt db : String) (drv : Option String),
      var_url "redshift" t u p h prt db drv =
        .ok ("redshift+psycopg2://" ++ u ++ ":" ++ p ++ "@" ++ h ++ ":" ++ prt ++ "/" ++ db)) :=
  ⟨url_dsn_mssql_trusted, url_dsn_mssql, url_dsn_sqlite, url_dsn_vertica,
   url_dsn_postgres, url_dsn_redshift, url_var_mssql_trusted, url_var_mssql_nodriver,
   url_var_mssql_driver, url_var_sqlite, url_var_vertica, url_var_postgres,
   url_var_redshift⟩

/-- Claim C1: evaluation of `_sql_dtypes` against the documented rule table.
Because `isinstance(value, int)` is checked first and Python `bool` is a
subclass of `int`, a boolean sample yields the big-integer tag and the
boolean branch is unreachable (first conjunct: no value at all infers as
`Boolean`); a calendar date is not a `datetime` instance and the source has
no date branch, so a date falls through to `Text`.  The remaining conjuncts
confirm the int, float, str, datetime and fallback rows. -/
theorem c1_sql_dtypes_eval :
    (∀ (v : PyValue) (cl : Nat), sql_dtypes v cl ≠ SqlType.Boolean) ∧
    sql_dtypes (.bool true) 255 = .BigInteger ∧
    sql_dtypes (.bool false) 255 = .BigInteger ∧
    sql_dtypes .date 255 = .Text ∧
    sql_dtypes (.int 7) 255 = .BigInteger ∧
    sql_dtypes .float 255 = .Float ∧
    sql_dtypes (.str "x") 10 = .String 10 ∧
    sql_dtypes .datetime 255 = .DateTime ∧
    sql_dtypes .pyNone 255 = .Text := by
  refine ⟨?_, by decide, by decide, by decide, by decide, by decide, by decide, by decide,
    by decide⟩
  intro v cl
  cases v <;> simp [sql_dtypes, isinstance_int, isinstance_float, isinstance_bool,
    isinstance_str, isinstance_datetime]

/-- Claim C9: creating a new table with `index=True` prepends exactly one
extra column named `Index`, placed first, typed by `_sql_dtypes` from the
first index value — but carrying `index=True` (the `indexed` flag, a
secondary index) and `primaryKey := false`: the source never sets
`primary_key`, contradicting its own docstring ("True will use index as
primary key"). -/
theorem c9_index_column :
    write_table Option.none df9 "t" "fail" true true 255 stEmpty =
      .ok { phys := [("t", { cols := c9cols, rows := [] })], meta := [("t", c9cols)] } ∧
    c9cols.head? = Option.some
      { name := "Index", dtype := sql_dtypes (.int 1), indexed := true, primaryKey := false }
    := by decide

/-- Claim C2 counterexample: on `st0` (table `t` present physically and in
the catalog), `write_table(..., 'replace')` succeeds, while `drop_table`
followed by `write_table(..., 'fail')` raises InvalidRequestError because
the stale catalog entry survives the drop.  The two sequences therefore do
not succeed under the same conditions. -/
theorem c2_counterexample :
    write_table Option.none df0 "t" "replace" false false 255 st0 =
      .ok { phys := [("t", { cols := [colA], rows := [[("a", PyValue.int 1)]] })],
            meta := [("t", [colA])] } ∧
    drop_table Option.none "t" st0 = .ok { phys := [], meta := [("t", [colA])] } ∧
    write_table Option.none df0 "t" "fail" false false 255
        { phys := [], meta := [("t", [colA])] } =
      .error (.invalidRequest, { phys := [], meta := [("t", [colA])] }) := by decide

/-- Claim C5 counterexample: after a successful `drop_table` of table `t`,
the reflected catalog still contains an entry for `t`, contradicting the
claim that the entry is removed. -/
theorem c5_counterexample :
    drop_table Option.none "t" st0 = .ok { phys := [], meta := [("t", [colA])] } ∧
    containsMeta { phys := [], meta := [("t", [colA])] } "t" = true := by decide

/-- Claim C6 counterexample: an unsupported backend identifier with a dsn
supplied makes the resolver fail with UnboundLocalError (NameError), which
is not the configuration ValueError the claim announces. -/
theorem c6_counterexample :
    resolveEngineUrl "oracle" (Option.some "mydsn") Option.none Option.none Option.none
        false "u" "p" Option.none = .error .nameError ∧
    PyErr.nameError ≠ PyErr.valueError := by decide

/-- Claim C10 counterexample: with schema `s` configured and table `s.t`
present, `write_table(df, 't', 'append')` raises KeyError because its
nested `insert` call re-qualifies the already-qualified name to `s.s.t`;
the same insert addressed directly at `s.t` succeeds, showing the caller's
unqualified name did not reach the table inside the schema namespace. -/
theorem c10_counterexample :
    write_table (Option.some "s") df0 "t" "append" false false 255 st10 =
      .error (.keyError, st10) ∧
    insertOp Option.none "s.t" (dfRows df0) st10 =
      .ok { phys := [("s.t", { cols := [colA], rows := [[("a", PyValue.int 1)]] })],
            meta := [("s.t", [colA])] } := by decide

/-- Claim C10 (amended): with a schema configured, `import_table`, `insert`
and `drop_table` each behave exactly as the unqualified operation applied to
`schema.table`; `write_table` also qualifies before its existence check, but
its append path hands the ALREADY-qualified name to `insert`, which
qualifies again, so the insert looks up `schema.schema.table` and raises
KeyError instead of touching `schema.table`. -/
theorem c10_schema_qualification (s t : String) (st : DB) (rows : List Row) (df : DF)
    (c i : Bool) (cl : Nat) :
    (importTable (Option.some s) t st = importTable Option.none (s ++ "." ++ t) st) ∧
    (insertOp (Option.some s) t rows st = insertOp Option.none (s ++ "." ++ t) rows st) ∧
    (drop_table (Option.some s) t st = drop_table Option.none (s ++ "." ++ t) st) ∧
    (hasTablePhys st (s ++ "." ++ t) = true →
      lookupMeta st (s ++ "." ++ (s ++ "." ++ t)) = Option.none →
      write_table (Option.some s) df t "append" c i cl st = .error (.keyError, st)) := by
  refine ⟨rfl, rfl, rfl, ?_⟩
  intro h1 h2
  rw [write_table_append_shape]
  simp only [qualify]
  rw [if_pos h1]
  exact insert_absent (Option.some s) (s ++ "." ++ t) (dfRows df) st h2

/-- Witness for C2: the amended equivalence instantiated at `st0`. -/
theorem c2_replace_equiv_witness :
    hasTablePhys st0 "t" = true ∧
    write_table Option.none df0 "t" "replace" false false 255 st0 =
      (match drop_table Option.none "t" st0 with
       | .error e => .error e
       | .ok st1 =>
         match metaRemove st1 "t" with
         | .error e => .error e
         | .ok st2 => write_table Option.none df0 "t" "fail" false false 255 st2) :=
  ⟨by decide, c2_replace_equiv df0 "t" false false 255 st0 (by decide)⟩

/-- Witness for C3: the fail-path theorem instantiated at `st0`. -/
theorem c3_fail_witness :
    write_table Option.none df0 "t" "fail" false false 255 st0 = .error (.typeError, st0) :=
  c3_fail_no_mutation Option.none df0 "t" false false 255 st0 (by decide)

/-- Witness for C4: inserting into a name absent from an empty catalog. -/
theorem c4_insert_witness :
    insertOp Option.none "missing" [] stEmpty = .error (.keyError, stEmpty) :=
  (c4_insert_contract Option.none "missing" [] stEmpty).1 (by decide)

/-- Witness for C5: the drop contract instantiated at `st0`. -/
theorem c5_drop_witness :
    drop_table Option.none "t" st0 = .ok (refresh (erasePhys st0 "t")) ∧
    hasTablePhys (refresh (erasePhys st0 "t")) "t" = false ∧
    lookupMeta (refresh (erasePhys st0 "t")) "t" = Option.some [colA] :=
  (c5_drop_table Option.none "t" st0).2 [colA] { cols := [colA], rows := [] }
    (by decide) (by decide)

/-- Witness for C6: missing parameters raise the configuration ValueError. -/
theorem c6_resolver_witness :
    resolveEngineUrl "postgres" Option.none Option.none Option.none Option.none false
      "u" "p" Option.none = .error .valueError :=
  (c6_resolver_cases "postgres" Option.none Option.none Option.none Option.none false
    "u" "p" Option.none).1 (by decide) (by decide)

/-- Witness for C7: the driver-override template at a concrete driver name
with spaces. -/
theorem c7_url_witness :
    var_url "mssql" false "sa" "pw" "dbhost" "1433" "mydb"
        (Option.some "ODBC Driver 17 for SQL Server") =
      .ok "mssql+pyodbc://sa:pw@dbhost:1433/mydb?driver=ODBC+Driver+17+for+SQL+Server" := by
  have h := c7_url_templates.2.2.2.2.2.2.2.2.1 "sa" "pw" "dbhost" "1433" "mydb"
    "ODBC Driver 17 for SQL Server" (by decide) (by decide)
  rw [h]
  decide

/-- Witness for C8: two dataframes differing only after the first row get
the same inferred column types. -/
theorem c8_inference_witness :
    columnTypes dfw1 255 = .ok [SqlType.BigInteger] ∧
    columnTypes dfw1 255 = columnTypes dfw2 255 := by
  have h := c8_first_row_inference dfw1 dfw2 255 (by decide) (by decide) (by decide)
    (by decide)
  refine ⟨?_, h.2⟩
  rw [h.1]
  decide

/-- Witness for C10: the append path with a schema configured raises
KeyError at a concrete state. -/
theorem c10_qualification_witness :
    write_table (Option.some "s") df9 "t" "append" false false 255 st10 =
      .error (.keyError, st10) :=
  (c10_schema_qualification "s" "t" st10 (dfRows df9) df9 false false 255).2.2.2
    (by decide) (by decide)
